import Mathlib

/-!
Verification development for the TradingBot repository.

Shallow embedding of the detection-and-judgment pipeline:
  * `src/services/trinity_indicators.py` (`TrinityLite.analyze`,
    `TrinityLite.get_latest_summary`),
  * `src/services/analyzer.py` (`TrinityAnalyzer.check_signal`,
    `TrinityAnalyzer.get_market_context`, `TrinityAnalyzer.judge_signal`,
    `TrinityAnalyzer._fallback_result`),
  * `src/services/shark_hunter_service.py` (`SharkHunterService.process_tick`,
    `_check_lunch_break`, `_do_maintenance`, `_run_hybrid_analysis`).

Modelling conventions:
  * Python floats are modelled by `ℚ`; a pandas value that may be `NaN`
    (e.g. the head of a rolling window) is modelled by `Option ℚ` with
    `none` standing for `NaN`.  A comparison against `NaN` is `False` in
    Python, and `.fillna`, `safe_float` and `dict.get` defaults are
    modelled by `Option.getD`.
  * pandas_ta primitives (`ta.ema`, `ta.cmf`, `ta.adosc`, `ta.rsi`,
    `ta.adx`, `ta.supertrend`, `ta.atr`, `ta.macd`) are an external
    library; they are pure functions of their input columns and are
    modelled as components of a `TaBackend` value passed to the engine.
    `ta.adx`/`ta.supertrend`/`ta.macd` may return `None`, hence `Option`.
  * Python dicts whose key sets differ between code paths are modelled as
    structures with `Option` fields: `none` means the key is absent.
  * Results are total functions: a `try/except` that converts any failure
    into a fallback value is modelled by the corresponding branch.
-/

/-- One OHLCV bar (a row of the dataframes handed to `TrinityLite`). -/
structure Bar where
  op : ℚ
  hi : ℚ
  lo : ℚ
  cl : ℚ
  vol : ℚ
deriving Repr, DecidableEq

/-- An OHLCV dataframe, in increasing time order. -/
abbrev Series := List Bar

def closesOf (df : Series) : List ℚ := df.map Bar.cl

def highsOf (df : Series) : List ℚ := df.map Bar.hi

def lowsOf (df : Series) : List ℚ := df.map Bar.lo

def volsOf (df : Series) : List ℚ := df.map Bar.vol

def barAt (df : Series) (i : ℕ) : Bar := df.getD i ⟨0, 0, 0, 0, 0⟩

/-- Read entry `i` of an indicator column (`none` = `NaN` / out of range). -/
def colGet (l : List (Option ℚ)) (i : ℕ) : Option ℚ := l.getD i none

/-- Python `x > y` where `x` may be `NaN`: comparisons with `NaN` are `False`. -/
def optGtC (x : Option ℚ) (c : ℚ) : Bool :=
  match x with
  | some a => decide (c < a)
  | none => false

/-- Python `x > y` where either side may be `NaN`. -/
def optGt (x y : Option ℚ) : Bool :=
  match x, y with
  | some a, some b => decide (b < a)
  | _, _ => false

/-- Python `c <= x` where `x` may be `NaN`. -/
def optLeC (c : ℚ) (x : Option ℚ) : Bool :=
  match x with
  | some a => decide (c ≤ a)
  | none => false

/-- Python `x <= c` where `x` may be `NaN`. -/
def optCLe (x : Option ℚ) (c : ℚ) : Bool :=
  match x with
  | some a => decide (a ≤ c)
  | none => false

/-- The window `xs[i-n+1 .. i]` backing `pandas.Series.rolling(window=n)`. -/
def rollWindow (xs : List ℚ) (n i : ℕ) : List ℚ :=
  (xs.take (i + 1)).drop (i + 1 - n)

/-- `rolling(window=n).mean()` at position `i` (`NaN` before `n` values exist). -/
def rollMean (n : ℕ) (xs : List ℚ) (i : ℕ) : Option ℚ :=
  if i + 1 < n then none else some ((rollWindow xs n i).sum / (n : ℚ))

/-- `rolling(window=n).min()` at position `i`. -/
def rollMin (n : ℕ) (xs : List ℚ) (i : ℕ) : Option ℚ :=
  if i + 1 < n then none else (rollWindow xs n i).min?

/-- `rolling(window=n).max()` at position `i`. -/
def rollMax (n : ℕ) (xs : List ℚ) (i : ℕ) : Option ℚ :=
  if i + 1 < n then none else (rollWindow xs n i).max?

/-- `col.shift(1).fillna(0)` applied to an `Option`-valued column given as a
position function. -/
def shift1Fill0 (col : ℕ → Option ℚ) (i : ℕ) : ℚ :=
  match i with
  | 0 => 0
  | j + 1 => (col j).getD 0

/-- The pandas_ta primitives consumed by `TrinityLite.analyze`, as pure
functions of the input dataframe.  `adx` returns the `(ADX_14, DMP_14,
DMN_14)` columns or `None`; `supertrend` returns `(SUPERT_, SUPERTd_)` or
fails (the source wraps it in `try/except`); `macdHist` is the `MACDh_`
column of `ta.macd`, or `None`. -/
structure TaBackend where
  ema : ℕ → Series → List (Option ℚ)
  cmf : Series → List (Option ℚ)
  chaikin : Series → List (Option ℚ)
  rsi : Series → List (Option ℚ)
  adx : Series → Option (List (Option ℚ) × List (Option ℚ) × List (Option ℚ))
  supertrend : Series → Option (List (Option ℚ) × List (Option ℚ))
  atr : Series → List (Option ℚ)
  macdHist : Series → Option (List (Option ℚ))

/- `TrinityLite` class constants (class attributes of the source). -/

def VOL_AVG_LEN : ℕ := 20

def SHAKEOUT_LOOK : ℕ := 10

def SR_LOOKBACK : ℕ := 20

def WYCKOFF_CONSOL_LEN : ℕ := 20

def PD_RSI_THRESHOLD : ℚ := 80

def PD_PRICE_SPIKE_PCT : ℚ := 5

def PD_VOL_SPIKE_K : ℚ := 3

/-- `vol_sma = df['volume'].rolling(window=VOL_AVG_LEN).mean()` (the
`vol_avg` column). -/
def volAvgCol (df : Series) (i : ℕ) : Option ℚ :=
  rollMean VOL_AVG_LEN (volsOf df) i

/-- `vol_sma_safe = vol_sma.fillna(1)`. -/
def volSmaSafe (df : Series) (i : ℕ) : ℚ :=
  (volAvgCol df i).getD 1

/-- `df['vol_climax'] = df['volume'] > (1.5 * vol_sma_safe)`. -/
def volClimaxCol (df : Series) (i : ℕ) : Bool :=
  decide ((3 : ℚ) / 2 * volSmaSafe df i < (barAt df i).vol)

/-- `df['vol_dry'] = df['volume'] < (0.5 * vol_sma_safe)`. -/
def volDryCol (df : Series) (i : ℕ) : Bool :=
  decide ((barAt df i).vol < (1 : ℚ) / 2 * volSmaSafe df i)

/-- `df['vol_accumulation']`: moderate volume increase with bullish candle. -/
def volAccumulationCol (df : Series) (i : ℕ) : Bool :=
  decide (volSmaSafe df i * ((6 : ℚ) / 5) < (barAt df i).vol) &&
  decide ((barAt df i).vol ≤ volSmaSafe df i * ((3 : ℚ) / 2)) &&
  decide ((barAt df i).op < (barAt df i).cl)

/-- `rsi_safe = df['rsi'].fillna(0)`. -/
def rsiSafeCol (ta : TaBackend) (df : Series) (i : ℕ) : ℚ :=
  (colGet (ta.rsi df) i).getD 0

/-- `cmf_safe = df['cmf'].fillna(0)`. -/
def cmfSafeCol (ta : TaBackend) (df : Series) (i : ℕ) : ℚ :=
  (colGet (ta.cmf df) i).getD 0

/-- `prior_swing_low = df['low'].rolling(SHAKEOUT_LOOK).min().shift(1).fillna(0)`. -/
def priorSwingLow (df : Series) (i : ℕ) : ℚ :=
  shift1Fill0 (rollMin SHAKEOUT_LOOK (lowsOf df)) i

/-- `df['shakeout']`: dip below the prior swing low with a bullish recovery
candle on non-panic volume (body > 30% of the spread). -/
def shakeoutCol (df : Series) (i : ℕ) : Bool :=
  let b := barAt df i
  let psl := priorSwingLow df i
  decide (b.lo < psl) && decide (b.op < b.cl) &&
  decide (b.vol < volSmaSafe df i * ((3 : ℚ) / 2)) &&
  decide ((b.hi - b.lo) * ((3 : ℚ) / 10) < |b.cl - b.op|) &&
  decide (0 < psl)

/-- `consol_high.shift(1).fillna(0)` (20-bar consolidation resistance). -/
def consolHighS (df : Series) (i : ℕ) : ℚ :=
  shift1Fill0 (rollMax WYCKOFF_CONSOL_LEN (highsOf df)) i

/-- `consol_low.shift(1).fillna(0)` (20-bar consolidation support). -/
def consolLowS (df : Series) (i : ℕ) : ℚ :=
  shift1Fill0 (rollMin WYCKOFF_CONSOL_LEN (lowsOf df)) i

/-- `df['wyckoff_sos']`: breakout 2% above the prior range on volume with
positive money flow. -/
def wyckoffSosCol (ta : TaBackend) (df : Series) (i : ℕ) : Bool :=
  let b := barAt df i
  let chs := consolHighS df i
  decide (chs * ((51 : ℚ) / 50) < b.cl) && decide (b.op < b.cl) &&
  decide (volSmaSafe df i * ((3 : ℚ) / 2) < b.vol) &&
  decide (0 < cmfSafeCol ta df i) && decide (0 < chs)

/-- `df['wyckoff_sow']`: breakdown 2% below the prior range on volume with
negative money flow. -/
def wyckoffSowCol (ta : TaBackend) (df : Series) (i : ℕ) : Bool :=
  let b := barAt df i
  let cls := consolLowS df i
  decide (b.cl < cls * ((49 : ℚ) / 50)) && decide (b.cl < b.op) &&
  decide (volSmaSafe df i * ((3 : ℚ) / 2) < b.vol) &&
  decide (cmfSafeCol ta df i < 0) && decide (0 < cls)

/-- `df['wyckoff_spring']`: wick under support, bullish close back above it
on low volume. -/
def wyckoffSpringCol (df : Series) (i : ℕ) : Bool :=
  let b := barAt df i
  let cls := consolLowS df i
  decide (b.lo < cls) && decide (cls < b.cl) && decide (b.op < b.cl) &&
  decide (b.vol < volSmaSafe df i) && decide (0 < cls)

/-- `df['wyckoff_upthrust']`: wick above resistance, bearish close back
below it on high volume. -/
def wyckoffUpthrustCol (df : Series) (i : ℕ) : Bool :=
  let b := barAt df i
  let chs := consolHighS df i
  decide (chs < b.hi) && decide (b.cl < chs) && decide (b.cl < b.op) &&
  decide (volSmaSafe df i * ((3 : ℚ) / 2) < b.vol) && decide (0 < chs)

/-- `price_change_5 = ((close / close.shift(5)) - 1) * 100`, `.fillna(0)`,
compared against `PD_PRICE_SPIKE_PCT`.  A zero prior close gives `±inf`
in pandas (never `NaN` unless the current close is also zero, which
`fillna(0)` turns into `0`), so the comparison is `True` exactly when the
current close is positive. -/
def priceSpikeGt5 (df : Series) (i : ℕ) : Bool :=
  if i < 5 then false
  else
    let p := (closesOf df).getD (i - 5) 0
    let c := (closesOf df).getD i 0
    if p = 0 then decide (0 < c)
    else decide (PD_PRICE_SPIKE_PCT < (c / p - 1) * 100)

/-- `df['pump_dump_risk']`: RSI extreme + huge volume + big price spike. -/
def pumpDumpCol (ta : TaBackend) (df : Series) (i : ℕ) : Bool :=
  decide (PD_RSI_THRESHOLD < rsiSafeCol ta df i) &&
  decide (volSmaSafe df i * PD_VOL_SPIKE_K < (barAt df i).vol) &&
  priceSpikeGt5 df i

/-- `rsi_safe.rolling(5).max().shift(1).fillna(0)` at position `i`. -/
def prevMax5 (xs : List ℚ) (i : ℕ) : ℚ :=
  shift1Fill0 (rollMax 5 xs) i

/-- `df['exhaustion_top']`: RSI > 75, new 5-bar price high that RSI does not
confirm, on elevated volume. -/
def exhaustionTopCol (ta : TaBackend) (df : Series) (i : ℕ) : Bool :=
  let rsiS := rsiSafeCol ta df i
  let rsiList := (List.range df.length).map (rsiSafeCol ta df)
  decide ((75 : ℚ) < rsiS) &&
  decide (prevMax5 (highsOf df) i < (barAt df i).hi) &&
  decide (rsiS < prevMax5 rsiList i) &&
  decide (volSmaSafe df i * ((3 : ℚ) / 2) < (barAt df i).vol)

/-- `df[f'ema_{p}'].fillna(0)` at position `i`. -/
def emaFill0 (ta : TaBackend) (p : ℕ) (df : Series) (i : ℕ) : ℚ :=
  (colGet (ta.ema p df) i).getD 0

/-- `df['ema_aligned_bull']`: EMA20 > EMA50 > EMA144 > EMA233 > 0. -/
def emaAlignedBullCol (ta : TaBackend) (df : Series) (i : ℕ) : Bool :=
  decide (emaFill0 ta 50 df i < emaFill0 ta 20 df i) &&
  decide (emaFill0 ta 144 df i < emaFill0 ta 50 df i) &&
  decide (emaFill0 ta 233 df i < emaFill0 ta 144 df i) &&
  decide (0 < emaFill0 ta 233 df i)

/-- `df['ema_aligned_bear']`: EMA20 < EMA50 < EMA144 < EMA233, EMA233 > 0. -/
def emaAlignedBearCol (ta : TaBackend) (df : Series) (i : ℕ) : Bool :=
  decide (emaFill0 ta 20 df i < emaFill0 ta 50 df i) &&
  decide (emaFill0 ta 50 df i < emaFill0 ta 144 df i) &&
  decide (emaFill0 ta 144 df i < emaFill0 ta 233 df i) &&
  decide (0 < emaFill0 ta 233 df i)

/-- `df['adx'].fillna(0)` given the concatenated `ta.adx` columns. -/
def adxSafe (adxCol : List (Option ℚ)) (i : ℕ) : ℚ :=
  (colGet adxCol i).getD 0

/-- The `signal_type` column of `TrinityLite.analyze` (section 8 of the
source): priority DIAMOND > MUC > SOM > SELL > NONE.  `adxCols` are the
`(adx, dmp, dmn)` columns; the source raises a `KeyError` before this
point when `ta.adx` returned `None`. -/
def signalTypeCol (ta : TaBackend) (df : Series)
    (adxCols : List (Option ℚ) × List (Option ℚ) × List (Option ℚ))
    (i : ℕ) : String :=
  let b := barAt df i
  let isUptrend := decide (emaFill0 ta 50 df i < b.cl)
  let adxS := adxSafe adxCols.1 i
  let dmpS := adxSafe adxCols.2.1 i
  let dmnS := adxSafe adxCols.2.2 i
  let isAdxStrong := decide ((25 : ℚ) < adxS)
  let isBullishAdx := decide (dmnS < dmpS)
  let rsiS := rsiSafeCol ta df i
  let cmfS := cmfSafeCol ta df i
  let sigDiamond := isUptrend && isAdxStrong && isBullishAdx &&
    decide (0 < cmfS) &&
    (volClimaxCol df i || decide (volSmaSafe df i * ((3 : ℚ) / 2) < b.vol)) &&
    !(pumpDumpCol ta df i) && !(exhaustionTopCol ta df i)
  let sigMuc := isUptrend && decide ((20 : ℚ) < adxS) && isBullishAdx &&
    decide ((50 : ℚ) < rsiS) && decide (rsiS < 70) && !(pumpDumpCol ta df i)
  let sigSom := (decide (rsiS < 30) && decide (volSmaSafe df i < b.vol) &&
    decide (b.op < b.cl)) || wyckoffSpringCol df i
  let sigSell := (decide (b.cl < emaFill0 ta 50 df i) && decide (rsiS < 50)) ||
    decide ((80 : ℚ) < rsiS) || wyckoffSowCol ta df i || wyckoffUpthrustCol df i
  if sigDiamond then "DIAMOND"
  else if sigMuc then "MUC"
  else if sigSom then "SOM"
  else if sigSell then "SELL"
  else "NONE"

/-- The dict returned by `TrinityLite.get_latest_summary` for the most
recent bar.  `support`/`resistance` keep the possibly-`NaN` rolling values
(`float(NaN)` is `NaN` in Python). -/
structure Summary where
  signal : String
  signalCode : String
  adx : ℚ
  adxStatus : String
  isBullish : Bool
  structureTag : String
  wyckoffPhase : String
  support : Option ℚ
  resistance : Option ℚ
  rsi : ℚ
  cmf : ℚ
  chaikin : ℚ
  prevChaikin : ℚ
  macdHist : ℚ
  prevMacdHist : ℚ
  volClimax : Bool
  volDry : Bool
  volAccumulation : Bool
  shakeout : Bool
  close : ℚ
  volume : ℚ
  volAvg : ℚ
  ema20 : ℚ
  ema50 : ℚ
  ema144 : ℚ
  ema233 : ℚ
  supertrend : ℚ
  supertrendDir : ℚ
  emaAligned : String
  trend : String
  pumpDumpRisk : Bool
  exhaustionTop : Bool
  atr : ℚ
  trailingStop : ℚ
deriving Repr, DecidableEq

/-- The summary record `get_latest_summary` assembles from the last (and
previous) row of the analyzed frame (`adxCols` are the concatenated
`ta.adx` columns). -/
def buildSummary (ta : TaBackend) (df : Series)
    (adxCols : List (Option ℚ) × List (Option ℚ) × List (Option ℚ)) : Summary :=
  let n := df.length
  let li := n - 1
  let pi' := if 1 < n then n - 2 else n - 1
  let adxO := colGet adxCols.1 li
  let dmpO := colGet adxCols.2.1 li
  let dmnO := colGet adxCols.2.2 li
  let adxStatus :=
    if optGtC adxO 50 then "QUÁ NÓNG 🟠"
    else if optGtC adxO 25 then
      (if optGt dmpO dmnO then "MẠNH TĂNG 🟢" else "MẠNH GIẢM 🔴")
    else "YẾU/SIDEWAY ⚪"
  let close := (barAt df li).cl
  let sup := rollMin SR_LOOKBACK (lowsOf df) li
  let res := rollMax SR_LOOKBACK (highsOf df) li
  let structureTag :=
    if wyckoffSosCol ta df li then "🟢 SOS (Tín hiệu Mạnh - Wyckoff)"
    else if wyckoffSpringCol df li then "🟢 SPRING (Rũ bỏ - Wyckoff)"
    else if wyckoffSowCol ta df li then "🔴 SOW (Yếu - Wyckoff)"
    else if wyckoffUpthrustCol df li then "🔴 UPTHRUST (Bẫy tăng - Wyckoff)"
    else if optLeC close (sup.map (fun s => s * ((51 : ℚ) / 50))) then
      "Chạm Hỗ trợ (Hộp Xanh)"
    else if optCLe (res.map (fun r => r * ((49 : ℚ) / 50))) close then
      "Chạm Kháng cự (Hộp Đỏ)"
    else if optGt (some close) (colGet (ta.ema 50 df) li) then "Trên EMA50 (Tăng)"
    else "Bình thường"
  let sigType := signalTypeCol ta df adxCols li
  let signalEmoji :=
    if sigType = "DIAMOND" then "💎 SUPER BUY"
    else if sigType = "MUC" then "✅ MÚC (An toàn)"
    else if sigType = "SOM" then "⚠️ SỚM (Rủi ro)"
    else if sigType = "SELL" then "🚨 BÁN"
    else ""
  let wyckoffPhase :=
    if wyckoffSosCol ta df li then "SOS"
    else if wyckoffSpringCol df li then "SPRING"
    else if wyckoffSowCol ta df li then "SOW"
    else if wyckoffUpthrustCol df li then "UPTHRUST"
    else "NONE"
  let atr := (colGet (ta.atr df) li).getD 0
  let stPair := ta.supertrend df
  let stVal := match stPair with
    | some cols => (colGet cols.1 li).getD 0
    | none => 0
  let stDir := match stPair with
    | some cols => (colGet cols.2 li).getD 0
    | none => 1
  let atrStop := if 0 < atr then close - 2 * atr else 0
  let trailingStop := if 0 < stVal then max stVal atrStop else atrStop
  let macdH := match ta.macdHist df with
    | some col => (colGet col li).getD 0
    | none => 0
  let prevMacdH := match ta.macdHist df with
    | some col => (colGet col pi').getD 0
    | none => 0
  let chaikinVal := (colGet (ta.chaikin df) li).getD 0
  let prevChaikin := (colGet (ta.chaikin df) pi').getD 0
  let emaAligned :=
    if emaAlignedBullCol ta df li then "BULL"
    else if emaAlignedBearCol ta df li then "BEAR"
    else "NONE"
  {
    signal := signalEmoji
    signalCode := sigType
    adx := adxO.getD 0
    adxStatus := adxStatus
    isBullish := optGt dmpO dmnO
    structureTag := structureTag
    wyckoffPhase := wyckoffPhase
    support := sup
    resistance := res
    rsi := rsiSafeCol ta df li
    cmf := (colGet (ta.cmf df) li).getD 0
    chaikin := chaikinVal
    prevChaikin := prevChaikin
    macdHist := macdH
    prevMacdHist := prevMacdH
    volClimax := volClimaxCol df li
    volDry := volDryCol df li
    volAccumulation := volAccumulationCol df li
    shakeout := shakeoutCol df li
    close := close
    volume := (barAt df li).vol
    volAvg := (volAvgCol df li).getD 0
    ema20 := (colGet (ta.ema 20 df) li).getD 0
    ema50 := (colGet (ta.ema 50 df) li).getD 0
    ema144 := (colGet (ta.ema 144 df) li).getD 0
    ema233 := (colGet (ta.ema 233 df) li).getD 0
    supertrend := stVal
    supertrendDir := stDir
    emaAligned := emaAligned
    trend := if (colGet (ta.ema 50 df) li).getD 0 < close then "UPTREND" else "DOWNTREND"
    pumpDumpRisk := pumpDumpCol ta df li
    exhaustionTop := exhaustionTopCol ta df li
    atr := atr
    trailingStop := trailingStop
  }

/-- `TrinityLite.get_latest_summary`: run `analyze` and summarize the last
bar.  Returns `none` when the analyzed frame is empty or when `analyze`
raised (in this model: when `ta.adx` returned `None`, which makes
`df['adx']` a `KeyError` in section 8 of `analyze`; the source catches the
exception and returns `None`). -/
def getLatestSummary (ta : TaBackend) (df : Series) : Option Summary :=
  match ta.adx df with
  | none => none
  | some adxCols =>
    if df = [] then none
    else some (buildSummary ta df adxCols)

theorem buildSummary_pumpDumpRisk (ta : TaBackend) (df : Series)
    (adxCols : List (Option ℚ) × List (Option ℚ) × List (Option ℚ)) :
    (buildSummary ta df adxCols).pumpDumpRisk =
      pumpDumpCol ta df (df.length - 1) := rfl

theorem buildSummary_rsi (ta : TaBackend) (df : Series)
    (adxCols : List (Option ℚ) × List (Option ℚ) × List (Option ℚ)) :
    (buildSummary ta df adxCols).rsi = rsiSafeCol ta df (df.length - 1) := rfl

/-- The `TrinityLite` engine object.  The Python class has no instance
attributes (its `__init__` only prints), so the instance carries no state;
every configuration constant is a class attribute modelled above. -/
structure TrinityLite where
deriving DecidableEq

/-- Method call `engine.get_latest_summary(df)`: the result together with
the engine object after the call (the method never assigns to `self`). -/
def TrinityLite.getLatestSummaryM (eng : TrinityLite) (ta : TaBackend)
    (df : Series) : Option Summary × TrinityLite :=
  (getLatestSummary ta df, eng)

/-- The dict returned by `TrinityAnalyzer.check_signal`.  Keys present only
on the success path (absent from `_fallback_result`) are `Option` fields
with `none` = key absent.  Neither dict carries a `vol_dry` key, hence
`volDry` is `none` in both constructions (the Judge reads it with `.get`). -/
structure AnalysisResult where
  rating : String
  score : Option ℤ
  reasons : Option (List String)
  trend : String
  cmf : ℚ
  cmfStatus : String
  chaikin : ℚ
  rsi : ℚ
  trigger : String
  close : ℚ
  ema50 : ℚ
  ema144 : ℚ
  ema233 : ℚ
  volClimax : Bool
  shakeout : Bool
  signalBuy : Bool
  adx : Option ℚ
  adxStatus : Option String
  isBullish : Option Bool
  structureTag : Option String
  support : Option (Option ℚ)
  resistance : Option (Option ℚ)
  volAvg : Option ℚ
  volDry : Option Bool
  error : Option String
deriving Repr, DecidableEq

/-- `TrinityAnalyzer._fallback_result`: the safe default when technical
data is unavailable.  Note the dict has no `score`, `reasons`, `adx`,
`adx_status`, `is_bullish`, `structure`, `support`, `resistance` or
`vol_avg` keys. -/
def fallbackResult (error : String) : AnalysisResult where
  rating := "WATCH"
  score := none
  reasons := none
  trend := "N/A"
  cmf := 0
  cmfStatus := "N/A"
  chaikin := 0
  rsi := 0
  trigger := ""
  close := 0
  ema50 := 0
  ema144 := 0
  ema233 := 0
  volClimax := false
  shakeout := false
  signalBuy := false
  adx := none
  adxStatus := none
  isBullish := none
  structureTag := none
  support := none
  resistance := none
  volAvg := none
  volDry := none
  error := some error

/-- The score accumulation of `TrinityAnalyzer.check_signal` (sections 1-3
of its rating logic).  The source's `elif adx > 50` arm is unreachable
(shadowed by `if adx > 25`) and only appends a reason, so it contributes
no points. -/
def scoreOf (s : Summary) : ℤ :=
  (if 70 < s.rsi then (if s.volAvg < s.volume then 3 else -3)
   else if 50 ≤ s.rsi ∧ s.rsi ≤ 70 then 2 else 0)
  + (if s.ema50 < s.close then 2 else 0)
  + (if 0 < s.cmf then 2 else 0)
  + (if s.prevChaikin < s.chaikin then 1 else 0)
  + (if 0 < s.macdHist then 2 else 0)
  + (if 25 < s.adx then (if s.isBullish then 2 else -5) else 0)

/-- The reasons list of `check_signal` (numeric interpolations of the
source's f-strings are elided). -/
def reasonsOf (s : Summary) : List String :=
  (if 70 < s.rsi then
     [if s.volAvg < s.volume then "RSI>70 + Vol (Breakout) ✅ (+3)"
      else "RSI>70 + Low Vol (Trap) ⚠️ (-3)"]
   else if 50 ≤ s.rsi ∧ s.rsi ≤ 70 then ["RSI 50-70 (Tốt) ✅ (+2)"] else [])
  ++ (if s.ema50 < s.close then ["Giá > EMA50 ✅ (+2)"] else [])
  ++ (if 0 < s.cmf then ["CMF > 0 ✅ (+2)"] else [])
  ++ (if s.prevChaikin < s.chaikin then ["Chaikin Tăng ✅ (+1)"] else [])
  ++ (if 0 < s.macdHist then ["MACD Hist > 0 ✅ (+2)"] else [])
  ++ (if 25 < s.adx then
        [if s.isBullish then "ADX Mạnh + Tăng ✅ (+2)" else "ADX Mạnh + Giảm ⚠️ (-5)"]
      else [])
  ++ (if 25 < s.adx ∧ s.isBullish = false then ["⛔ BỎ QUA (ADX Báo Giảm Mạnh)"] else [])

/-- The success-path result dict of `check_signal`: score, rating (with
the final strong-downtrend ADX guard), reasons, and the copied summary
fields. -/
def checkSignalSuccess (s : Summary) : AnalysisResult :=
    let score := scoreOf s
    let rating0 :=
      if 8 ≤ score then "MUA MẠNH 🚀"
      else if 6 ≤ score then "MUA THĂM DÒ 🟢"
      else "THEO DÕI 🟡"
    -- FINAL GUARD: strong-downtrend ADX forces the rating to WATCH
    let rating := if 25 < s.adx ∧ s.isBullish = false then "WATCH" else rating0
    { rating := rating
      score := some score
      reasons := some (reasonsOf s)
      trend := s.trend
      cmf := s.cmf
      cmfStatus := "N/A"  -- summary dict has no cmf_status key: .get default
      chaikin := s.chaikin
      rsi := s.rsi
      trigger := "N/A"    -- summary dict has no trigger key: .get default
      close := s.close
      ema50 := s.ema50
      ema144 := s.ema144
      ema233 := s.ema233
      volClimax := s.volClimax
      shakeout := s.shakeout
      signalBuy := true   -- summary.get('signal') is always a string, never None
      adx := some s.adx
      adxStatus := some s.adxStatus
      isBullish := some s.isBullish
      structureTag := some s.structureTag
      support := some s.support
      resistance := some s.resistance
      volAvg := some s.volAvg
      volDry := none      -- check_signal's dict carries no vol_dry key
      error := none }

theorem checkSignalSuccess_rsi (s : Summary) :
    (checkSignalSuccess s).rsi = s.rsi := rfl

theorem checkSignalSuccess_score (s : Summary) :
    (checkSignalSuccess s).score = some (scoreOf s) := rfl

theorem checkSignalSuccess_adx (s : Summary) :
    (checkSignalSuccess s).adx = some s.adx := rfl

theorem checkSignalSuccess_isBullish (s : Summary) :
    (checkSignalSuccess s).isBullish = some s.isBullish := rfl

theorem checkSignalSuccess_rating (s : Summary) :
    (checkSignalSuccess s).rating =
      (if 25 < s.adx ∧ s.isBullish = false then "WATCH"
       else if 8 ≤ scoreOf s then "MUA MẠNH 🚀"
       else if 6 ≤ scoreOf s then "MUA THĂM DÒ 🟢"
       else "THEO DÕI 🟡") := rfl

/-- `TrinityAnalyzer.check_signal`.  The OHLCV fetch result
(`_fetch_data`, an external I/O call) is the `fetch` argument: `none` for
a failed/empty fetch.  Fewer than 50 bars, or a `None` summary, yield the
fallback result; otherwise score, rate and package the summary.  (The
whole body is wrapped in `try/except` returning the fallback, so the
function is total.) -/
def checkSignalData (fetch : Option Series) (ta : TaBackend) : AnalysisResult :=
  match fetch with
  | none => fallbackResult "No Tech Data (insufficient bars)"
  | some df =>
    if df.length < 50 then fallbackResult "No Tech Data (insufficient bars)"
    else
      match getLatestSummary ta df with
      | none => fallbackResult "No Tech Data (calc error)"
      | some s => checkSignalSuccess s

/-- The dict returned by `TrinityAnalyzer.get_market_context`.  The
`current`/`ma20` keys exist only on the success path; the no-data and
exception paths return dicts without them (`none`). -/
structure MarketContext where
  status : String
  reason : String
  trend : String
  changePts : ℚ
  current : Option ℚ
  ma20 : Option ℚ
deriving Repr, DecidableEq

/-- `df_index.iloc[-1]['close']`. -/
def lastClose (closes : List ℚ) : ℚ := closes.getD (closes.length - 1) 0

/-- `df_index.iloc[-2]['close']`. -/
def prevClose (closes : List ℚ) : ℚ := closes.getD (closes.length - 2) 0

/-- `ta.sma(df_index['close'], length=20)` at the last row (defined since
the caller guarantees at least 20 rows). -/
def sma20Last (closes : List ℚ) : ℚ :=
  ((closes.drop (closes.length - 20)).sum) / 20

/-- The `try`-block body of `TrinityAnalyzer.get_market_context` (the
VN-INDEX health rules), as a function of the fetched index close series
(`none` = fetch returned `None`).  Numeric interpolations in reasons are
elided.  In the program this logic is dead code: the call
`self._fetch_data("VNINDEX", lookback=40)` raises `TypeError` before any
data is fetched (see `getMarketContext` below), so no execution reaches
these rules. -/
def marketContextFromFetch (fetch : Option (List ℚ)) : MarketContext :=
  match fetch with
  | none =>
    { status := "SAFE", reason := "No Data", trend := "SIDEWAY"
      changePts := 0, current := none, ma20 := none }
  | some closes =>
    if closes.length < 20 then
      { status := "SAFE", reason := "No Data", trend := "SIDEWAY"
        changePts := 0, current := none, ma20 := none }
    else
      let close := lastClose closes
      let ma20 := sma20Last closes
      let changePts := close - prevClose closes
      let trend := if ma20 < close then "UP" else "DOWN"
      let isMa20Broken := close < ma20
      let isPanicDrop := changePts < -10
      if isPanicDrop then
        { status := "DANGER", reason := "VNINDEX Sập điểm", trend := trend
          changePts := changePts, current := some close, ma20 := some ma20 }
      else if isMa20Broken then
        { status := "DANGER", reason := "VNINDEX Gãy MA20", trend := trend
          changePts := changePts, current := some close, ma20 := some ma20 }
      else
        { status := "SAFE", reason := "Market OK", trend := trend
          changePts := changePts, current := some close, ma20 := some ma20 }

/-- `TrinityAnalyzer.get_market_context` as executed.  The only live
definition of `_fetch_data` has signature `(self, symbol, timeframe='1D')`
(the later `def _fetch_data(self, symbol: str, lookback: ...)` text sits
inside a `#` comment block), so the call
`self._fetch_data("VNINDEX", lookback=40)` raises
`TypeError: unexpected keyword argument` on every invocation; the
surrounding `except` turns that into this fixed `SAFE` dict (no
`current`/`ma20` keys).  Every call therefore returns this value and the
danger rules in `marketContextFromFetch` are unreachable. -/
def getMarketContext : MarketContext :=
  { status := "SAFE", reason := "Error checking Index", trend := "SIDEWAY"
    changePts := 0, current := none, ma20 := none }

/-- The shark payload handed to `judge_signal` by `_run_hybrid_analysis`. -/
structure SharkPayload where
  price : ℚ
  changePc : ℚ
  totalVol : ℚ
  orderValue : ℚ
  vol : ℚ
  side : String
deriving Repr, DecidableEq

/-- The dict returned by `TrinityAnalyzer.judge_signal`.  Every rejection
path returns `{'approved': False, 'reason': ..., 'message': None}` with no
`analysis` key; only the approval path carries `message`/`analysis`. -/
structure JudgeResult where
  approved : Bool
  reason : String
  message : Option String
  analysis : Option AnalysisResult
deriving Repr, DecidableEq

def mkReject (r : String) : JudgeResult :=
  { approved := false, reason := r, message := none, analysis := none }

/-- The `except` branch of `judge_signal`: any internal exception is
converted into this rejection. -/
def judgeExceptionResult : JudgeResult :=
  { approved := false, reason := "Judge Exception", message := none, analysis := none }

/-- Python `"MUA" in rating` (substring test). -/
def strContainsMUA (rating : String) : Bool :=
  decide ("MUA".toList <:+: rating.toList)

/-- The approved-alert Telegram message (interpolated numbers rendered via
`toString`; the exact decimal formatting of the source's f-string is
elided). -/
def approvedMessage (symbol timeStr : String) (payload : SharkPayload)
    (vrat adx : ℚ) (isBullish : Bool) (marketStatus : String) (cur rsi : ℚ)
    (rating : String) : String :=
  "🚀 **PHÁT HIỆN ĐIỂM NỔ: #" ++ symbol ++ "**\n⏰ " ++ timeStr ++
  "\n\n✅ **LÝ DO KÍCH HOẠT:**\n• Giá: " ++ toString payload.price ++
  " (" ++ toString payload.changePc ++ "%)\n• Vol: Đột biến " ++
  toString vrat ++ "x trung bình.\n• Trend: ADX " ++ toString adx ++
  " (" ++ (if isBullish then "MẠNH TĂNG 🔥" else "YẾU 🟡") ++
  ")\n\n🛡️ **CHECK T+2.5:**\n• VN-INDEX: " ++ marketStatus ++ " (" ++
  toString cur ++ ")\n• Dư địa: RSI " ++ toString rsi ++
  " (An toàn)\n\n👉 **KHUYẾN NGHỊ:**\n**" ++ rating ++ "**"

/-- The body of `TrinityAnalyzer.judge_signal` after its two internal
calls: the ordered kill-switch cascade.  `timeStr` is the wall-clock
string used in the approval message.  In the approval branch the source
reads `market['current']`; the no-data/exception market dicts lack that
key, so the resulting `KeyError` is caught by the surrounding `try` and
produces the `Judge Exception` rejection. -/
def judgeCore (symbol : String) (analysis : AnalysisResult)
    (market : MarketContext) (payload : SharkPayload)
    (timeStr : String) : JudgeResult :=
  -- 1. No technical data (`if not analysis or analysis.get('error')`;
  --    the dict itself is always truthy)
  if analysis.error.isSome then mkReject "No Technical Data"
  -- 2. Market context kill switch
  else if market.status = "DANGER" then
    mkReject ("MARKET DANGER (" ++ market.reason ++ ")")
  else
    let adx := analysis.adx.getD 0
    let isBullish := analysis.isBullish.getD false
    -- 3. Trend & ADX
    if adx < 20 then mkReject "ADX Yếu (< 20) - Sideway"
    else if 25 < adx ∧ isBullish = false then mkReject "ADX Đỏ - Downtrend Mạnh"
    else
      -- 4. Room (RSI limit)
      let rsi := analysis.rsi
      if 75 < rsi then mkReject "RSI Quá Mua (> 75)"
      else
        -- 5. Volume quality
        let volAvg := analysis.volAvg.getD 1
        let vrat := if 0 < volAvg then payload.totalVol / volAvg else 0
        if analysis.volDry.getD false then mkReject "Volume Cạn Kiệt (Dry)"
        else
          -- 6. Approval criteria: rating must contain "MUA"
          let rating := analysis.rating
          if !(strContainsMUA rating) then
            mkReject ("Rating Weak (" ++ rating ++ ")")
          else
            match market.current with
            | none => judgeExceptionResult
            | some cur =>
              { approved := true
                reason := "Passed All Checks"
                message := some (approvedMessage symbol timeStr payload vrat adx
                  isBullish market.status cur rsi rating)
                analysis := some analysis }

/-- `TrinityAnalyzer.judge_signal`: run `check_signal` and
`get_market_context`, then the kill-switch cascade.  `fetch` is the OHLCV
fetch for the symbol; `idxFetch` parameterises the VN-INDEX fetch through
`marketContextFromFetch`, a superset of program behaviour: in the program
every `get_market_context()` call returns the fixed `getMarketContext`
dict (the `TypeError` path), which `marketContextFromFetch` does not
produce for any `idxFetch`, but every theorem below quantifying over
`idxFetch` (or over the market context itself) covers that reachable
value's behaviour, since the judge only reads `status` (`SAFE`) and
`current` (`none`), matching `idxFetch = none`. -/
def judgeSignal (symbol : String) (fetch : Option Series) (ta : TaBackend)
    (idxFetch : Option (List ℚ)) (payload : SharkPayload)
    (timeStr : String) : JudgeResult :=
  judgeCore symbol (checkSignalData fetch ta) (marketContextFromFetch idxFetch)
    payload timeStr

/-- Python string `<` (lexicographic on code points), as the source's
`"HH:MM"` clock comparisons use it. -/
def pyStrLt (a b : String) : Bool := decide (a.data < b.data)

/-- Python string `<=`. -/
def pyStrLe (a b : String) : Bool := !(pyStrLt b a)

/-- Configuration of `SharkHunterService` (constructor-resolved settings).
`hasAnalyzer`/`hasTrinityMonitor` model whether `set_analyzer` /
`set_trinity_monitor` injected the dependencies. -/
structure SharkConfig where
  minValue : ℚ
  cooldown : ℚ
  startTime : String
  hasAnalyzer : Bool
  hasTrinityMonitor : Bool
deriving Repr, DecidableEq

/-- Mutable state of `SharkHunterService` touched by the alert path.
`alertHistory` models the `alert_history` dict (key → last alert
`time.time()`).  `shark_stats`, `trade_history`, `price_tracker` and the
caches are statistics/I-O side channels that never feed back into the
alert decisions and are not modelled. -/
structure HunterState where
  alertHistory : List (String × ℚ)
  isLunchBreak : Bool
  lastLunchCheck : ℚ
  lastMaintenance : ℚ
  lastResetDate : String
  summarySentToday : Bool
  lastSummaryDate : Option String
deriving Repr, DecidableEq

/-- The service state right after `__init__` at wall-clock time `t0` on
date `today0`. -/
def initState (today0 : String) (t0 : ℚ) : HunterState :=
  { alertHistory := []
    isLunchBreak := false
    lastLunchCheck := t0
    lastMaintenance := t0
    lastResetDate := today0
    summarySentToday := false
    lastSummaryDate := none }

/-- One incoming tick, with the ambient environment at processing time:
`now` is `time.time()`, `currentHM` the VN wall clock as `"HH:MM"`,
`today` the VN date string, `isLunchNow` the value of
`MarketHours.is_lunch_break()`.  The numeric fields are the already
extracted payload values (the multi-key fallback extraction and the
`ValueError` skip of malformed ticks happen at the boundary). -/
structure Tick where
  symbol : String
  price : ℚ
  vol : ℚ
  totalVol : ℚ
  changePc : ℚ
  sideCode : Option ℕ
  now : ℚ
  currentHM : String
  today : String
  isLunchNow : Bool
deriving Repr, DecidableEq

/-- `dict.get(key, 0)` on `alert_history`. -/
def histFind (h : List (String × ℚ)) (k : String) : Option ℚ :=
  (h.find? (fun p => p.1 = k)).map Prod.snd

def histLookup (h : List (String × ℚ)) (k : String) : ℚ :=
  (histFind h k).getD 0

/-- `alert_history[key] = v`. -/
def histSet (h : List (String × ℚ)) (k : String) (v : ℚ) : List (String × ℚ) :=
  (k, v) :: h.filter (fun p => ¬ (p.1 = k))

/-- `SharkHunterService._check_lunch_break`: throttled to once per 60s;
entering the lunch break clears `alert_history` (the source also clears
the Trinity monitor's history and filters the watchlist — external I/O). -/
def checkLunchBreak (st : HunterState) (t : Tick) : HunterState :=
  if t.now - st.lastLunchCheck < 60 then st
  else
    let st1 := { st with lastLunchCheck := t.now }
    if t.isLunchNow = true ∧ st1.isLunchBreak = false then
      { st1 with alertHistory := [], isLunchBreak := true }
    else if t.isLunchNow = false ∧ st1.isLunchBreak = true then
      { st1 with isLunchBreak := false }
    else st1

/-- `SharkHunterService._do_maintenance`.  `"08:30" ≤ currentHM` models
`(hour == 8 and minute >= 30) or hour > 8`; the summary window models
`hour == 15 and minute >= 15`.  `_save_stats` and the summary dispatch are
external I/O.  The final `if now - last_maintenance > 300` save is dead
state-wise (saves only). -/
def doMaintenance (st : HunterState) (t : Tick) : HunterState :=
  let st1 :=
    if 60 < t.now - st.lastMaintenance then
      let stm := { st with lastMaintenance := t.now }
      if t.today ≠ stm.lastResetDate then
        { stm with alertHistory := [], lastResetDate := t.today }
      else stm
    else st
  -- cleanup: remove entries older than 2 hours
  let st2 := { st1 with
    alertHistory := st1.alertHistory.filter (fun p => ¬ (7200 < t.now - p.2)) }
  -- daily reset at 08:30
  let st3 :=
    if pyStrLe "08:30" t.currentHM ∧ st2.lastResetDate ≠ t.today then
      { st2 with
          alertHistory := []
          lastResetDate := t.today
          summarySentToday := false }
    else st2
  -- daily watchlist summary at 15:15
  let st4 :=
    if pyStrLe "15:15" t.currentHM ∧ pyStrLt t.currentHM "16:00" then
      (if st3.summarySentToday = false ∧ some t.today ≠ st3.lastSummaryDate then
        { st3 with summarySentToday := true, lastSummaryDate := some t.today }
      else st3)
    else st3
  { st4 with lastMaintenance := t.now }

/-- `real_price = price if price > 1000 else price * 1000`
(`process_tick`, price scaling logic). -/
def realPriceOf (price : ℚ) : ℚ :=
  if 1000 < price then price else price * 1000

/-- Side extraction (`1=Buy, 2=Sell`, anything else `Unknown`). -/
def sideName : Option ℕ → String
  | some 1 => "Buy"
  | some 2 => "Sell"
  | _ => "Unknown"

/-- The volatility-tracking block of `process_tick`: on a large price move
with enough session volume it records `alert_history["volatility_" + sym]`
under a one-hour cooldown (the alert itself, `_send_volatility_alert`, is
disabled — its body is `pass`).  The `price_tracker` bookkeeping has no
effect on alerts and is not modelled. -/
def volatilityStep (st : HunterState) (t : Tick) : HunterState :=
  if t.changePc ≠ 0 ∧ 5 ≤ |t.changePc| ∧ 200000 ≤ t.totalVol then
    let k := "volatility_" ++ t.symbol
    if 3600 < t.now - histLookup st.alertHistory k then
      { st with alertHistory := histSet st.alertHistory k t.now }
    else st
  else st

/-- A fired alert event: (`time.time()` of the firing tick, symbol, side). -/
abbrev Ev := ℚ × String × String

def keyOf (e : Ev) : String := e.2.1 ++ "_" ++ e.2.2

/-- Result of one `process_tick` call: the new state, the fired shark
alert (`send_alert` invocation), the payload of the hybrid-analysis thread
(`_run_hybrid_analysis`) if started, and whether the legacy Trinity check
thread was started instead. -/
structure TickOutcome where
  state : HunterState
  fired : Option Ev
  dispatched : Option SharkPayload
  legacyDispatched : Bool
deriving Repr, DecidableEq

/-- The tail of `process_tick` after the value threshold: skip below
`min_value`, check the per-`(symbol, side)` cooldown, then record the
alert time, send the alert and start the hybrid analysis.  (The watchlist
volume check and `_update_stats` in between are I/O/statistics with no
effect on this path.) -/
def alertStep (cfg : SharkConfig) (st : HunterState) (t : Tick)
    (realPrice orderValue : ℚ) (side : String) : TickOutcome :=
  if orderValue < cfg.minValue then ⟨st, none, none, false⟩
  else
    let key := t.symbol ++ "_" ++ side
    if t.now - histLookup st.alertHistory key < cfg.cooldown then
      ⟨st, none, none, false⟩
    else
      let st1 := { st with alertHistory := histSet st.alertHistory key t.now }
      let payload : SharkPayload :=
        ⟨realPrice, t.changePc, t.totalVol, orderValue, t.vol, side⟩
      ⟨st1, some (t.now, t.symbol, side),
        (if cfg.hasAnalyzer then some payload else none),
        (!cfg.hasAnalyzer && (side = "Buy" : Bool) && cfg.hasTrinityMonitor)⟩

/-- `SharkHunterService.process_tick`.  The body is wrapped in
`try/except` (exceptions skip the tick); all branches below mirror the
source's early returns in order. -/
def processTick (cfg : SharkConfig) (st0 : HunterState) (t : Tick) : TickOutcome :=
  let st := doMaintenance (checkLunchBreak st0 t) t
  if t.symbol = "" then ⟨st, none, none, false⟩
  else if pyStrLt t.currentHM cfg.startTime then ⟨st, none, none, false⟩
  else if pyStrLt "15:15" t.currentHM then ⟨st, none, none, false⟩
  else
    -- (real_price/order_value are first computed here for debug logging
    -- and recomputed identically after the symbol filter)
    let realPrice := realPriceOf t.price
    let orderValue := realPrice * t.vol
    if 3 < t.symbol.length then ⟨st, none, none, false⟩
    else
      let side := sideName t.sideCode
      let st1 := volatilityStep st t
      alertStep cfg st1 t realPrice orderValue side

/-- Fold `process_tick` over a tick stream, collecting the fired alerts. -/
def runTicks (cfg : SharkConfig) : HunterState → List Tick → HunterState × List Ev
  | st, [] => (st, [])
  | st, t :: ts =>
    let o := processTick cfg st t
    let r := runTicks cfg o.state ts
    (r.1, o.fired.toList ++ r.2)

/-- The raw rejected-shark message of `_run_hybrid_analysis` (numeric
formatting elided). -/
def rawSharkMsg (symbol : String) (price changePc orderValue : ℚ)
    (side reason : String) : String :=
  "🦈 **SHARK BITE (RAW): #" ++ symbol ++ "**\n" ++
  (if side = "Buy" then "🟢" else "🔴") ++ " **" ++
  (if side = "Buy" then "MUA" else "BÁN") ++ " " ++ toString orderValue ++
  "** | Giá: " ++ toString price ++ " (" ++ toString changePc ++
  "%)\n⚠️ *Judge Reject: " ++ reason ++ "*"

/-- `SharkHunterService._run_hybrid_analysis`: judge the shark order and
send either the approved breakout alert or the raw rejected-shark alert.
Returns the list of messages sent to the alert chat (the approval path
also upserts the watchlist — external I/O). -/
def runHybridAnalysis (hasChat : Bool) (symbol : String)
    (fetch : Option Series) (ta : TaBackend) (idxFetch : Option (List ℚ))
    (price changePc totalVol orderValue vol : ℚ) (side timeStr : String) :
    List String :=
  let payload : SharkPayload := ⟨price, changePc, totalVol, orderValue, vol, side⟩
  let result := judgeSignal symbol fetch ta idxFetch payload timeStr
  if result.approved then
    if hasChat then [result.message.getD ""] else []
  else
    if hasChat then
      [rawSharkMsg symbol price changePc orderValue side result.reason]
    else []

/-- Modelled from the spec: the "pressure count" of the spec's
PressureState — the number of recent qualifying buy-order timestamps `ti`
with `tN − ti < window`.  `process_tick` in the source maintains no such
state; this definition exists only to state the spec's claim against the
code. -/
def specPressureCount (times : List ℚ) (tN window : ℚ) : ℕ :=
  (times.filter (fun ti => decide (tN - ti < window))).length

/-- Modelled from the spec: the rating thresholds claimed in the spec
(≥10 strong-buy, ≥7 speculative-buy, ≥4 watch, else no-buy), mapped onto
the code's rating strings; `"NO-BUY"` stands for the claimed fourth
category, which the code does not have. -/
def specRatingOfScore (sc : ℤ) : String :=
  if 10 ≤ sc then "MUA MẠNH 🚀"
  else if 7 ≤ sc then "MUA THĂM DÒ 🟢"
  else if 4 ≤ sc then "THEO DÕI 🟡"
  else "NO-BUY"

/- Concrete inputs used by witnesses and counterexamples. -/

/-- A trivially empty pandas_ta backend (concrete input). -/
def emptyTa : TaBackend where
  ema := fun _ _ => []
  cmf := fun _ => []
  chaikin := fun _ => []
  rsi := fun _ => []
  adx := fun _ => none
  supertrend := fun _ => none
  atr := fun _ => []
  macdHist := fun _ => none

/-- Concrete backend with constant RSI 85 (pump-and-dump regime). -/
def taRsi85 : TaBackend where
  ema := fun _ df => df.map (fun _ => some 5)
  cmf := fun df => df.map (fun _ => some ((1 : ℚ) / 2))
  chaikin := fun df => df.map (fun _ => some 1)
  rsi := fun df => df.map (fun _ => some 85)
  adx := fun df =>
    some (df.map (fun _ => some 30), df.map (fun _ => some 5),
      df.map (fun _ => some 1))
  supertrend := fun _ => none
  atr := fun df => df.map (fun _ => some 0)
  macdHist := fun df => some (df.map (fun _ => some 1))

/-- Concrete backend with constant RSI 60, rising Chaikin, ADX 20. -/
def taRsi60 : TaBackend where
  ema := fun _ df => df.map (fun _ => some 5)
  cmf := fun df => df.map (fun _ => some ((1 : ℚ) / 2))
  chaikin := fun df => (List.range df.length).map (fun i => some (i : ℚ))
  rsi := fun df => df.map (fun _ => some 60)
  adx := fun df =>
    some (df.map (fun _ => some 20), df.map (fun _ => some 5),
      df.map (fun _ => some 1))
  supertrend := fun _ => none
  atr := fun df => df.map (fun _ => some 0)
  macdHist := fun df => some (df.map (fun _ => some 1))

/-- Six flat bars with a 10% jump on the last close. -/
def df6 : Series :=
  [⟨100, 100, 100, 100, 100⟩, ⟨100, 100, 100, 100, 100⟩,
   ⟨100, 100, 100, 100, 100⟩, ⟨100, 100, 100, 100, 100⟩,
   ⟨100, 100, 100, 100, 100⟩, ⟨100, 110, 100, 110, 100⟩]

/-- Fifty flat bars. -/
def df50 : Series := List.replicate 50 ⟨9, 11, 8, 10, 100⟩

/-- Twenty index closes ending in a 20-point drop. -/
def idxCloses : List ℚ := (List.replicate 19 100) ++ [80]

/-- Concrete service configuration (production defaults). -/
def cexCfg : SharkConfig :=
  { minValue := 1000000000
    cooldown := 60
    startTime := "09:00"
    hasAnalyzer := true
    hasTrinityMonitor := false }

/-- A small pre-lunch tick that only advances the lunch/maintenance clocks. -/
def tick1 : Tick :=
  { symbol := "ZZZ", price := 1, vol := 1, totalVol := 0, changePc := 0
    sideCode := some 1, now := 100, currentHM := "11:25"
    today := "2025-01-06", isLunchNow := false }

/-- A 2-billion buy shark tick at 11:28. -/
def tick2 : Tick :=
  { tick1 with
      symbol := "AAA"
      price := 50
      vol := 40000
      now := 150
      currentHM := "11:28" }

/-- The same shark again 15 seconds later, as lunch break begins. -/
def tick3 : Tick :=
  { tick2 with now := 165, currentHM := "11:31", isLunchNow := true }

/-- A single 1-billion buy shark tick (exactly the threshold). -/
def tick4 : Tick :=
  { symbol := "BBB", price := 50, vol := 20000, totalVol := 0, changePc := 0
    sideCode := some 1, now := 100, currentHM := "09:30"
    today := "2025-01-06", isLunchNow := false }

/-- The same shark 100 seconds later (past the 60s cooldown). -/
def tick5 : Tick := { tick4 with now := 200 }

/-- A success-shaped analysis dict passing every kill switch. -/
def passingAnalysis : AnalysisResult :=
  { rating := "MUA MẠNH 🚀", score := some 9, reasons := some []
    trend := "UPTREND", cmf := 1 / 2, cmfStatus := "N/A", chaikin := 49
    rsi := 60, trigger := "N/A", close := 10, ema50 := 5, ema144 := 5
    ema233 := 5, volClimax := false, shakeout := false, signalBuy := true
    adx := some 30, adxStatus := some "MẠNH TĂNG 🟢", isBullish := some true
    structureTag := some "Trên EMA50 (Tăng)", support := some (some 8)
    resistance := some (some 11), volAvg := some 1000, volDry := none
    error := none }

/-- A concrete shark payload. -/
def cexPayload : SharkPayload :=
  { price := 50000, changePc := 2, totalVol := 2000000
    orderValue := 2000000000, vol := 40000, side := "Buy" }

/- Lemmas about the alert-history dict representation. -/

/-- Keys of the alert-history dict are pairwise distinct (dict invariant). -/
def KeysND (h : List (String × ℚ)) : Prop := (h.map Prod.fst).Nodup

theorem histFind_histSet (h : List (String × ℚ)) (k k' : String) (v : ℚ) :
    histFind (histSet h k v) k' = if k' = k then some v else histFind h k' := by
  unfold histFind histSet
  by_cases hk : k' = k
  · subst hk
    simp [List.find?]
  · rw [if_neg hk]
    rw [List.find?_cons_of_neg _ (by simpa using fun h => hk h.symm)]
    congr 1
    induction h with
    | nil => rfl
    | cons q tl ih =>
      by_cases hq : q.1 = k
      · rw [List.filter_cons_of_neg (by simpa using hq),
          List.find?_cons_of_neg _ (by simpa using fun h => hk (h.symm.trans hq))]
        exact ih
      · rw [List.filter_cons_of_pos (by simpa using hq)]
        by_cases hq' : q.1 = k'
        · rw [List.find?_cons_of_pos _ (by simpa using hq'),
            List.find?_cons_of_pos _ (by simpa using hq')]
        · rw [List.find?_cons_of_neg _ (by simpa using hq'),
            List.find?_cons_of_neg _ (by simpa using hq')]
          exact ih

theorem find?_filter_nd (h : List (String × ℚ)) (pred : String × ℚ → Bool)
    (k : String) (hnd : KeysND h) :
    (h.filter pred).find? (fun p => p.1 = k) =
      match h.find? (fun p => p.1 = k) with
      | none => none
      | some p => if pred p then some p else none := by
  induction h with
  | nil => rfl
  | cons q tl ih =>
    have hndtl : KeysND tl := (List.nodup_cons.mp hnd).2
    by_cases hq : q.1 = k
    · rw [List.find?_cons_of_pos _ (by simpa using hq)]
      have htl_none : tl.find? (fun p => p.1 = k) = none := by
        rw [List.find?_eq_none]
        intro x hx
        simp only [decide_eq_true_eq]
        intro hxk
        exact (List.nodup_cons.mp hnd).1 (hq ▸ hxk ▸ List.mem_map_of_mem Prod.fst hx)
      by_cases hp : pred q
      · rw [List.filter_cons_of_pos hp, List.find?_cons_of_pos _ (by simpa using hq)]
        simp [hp]
      · rw [List.filter_cons_of_neg (by simpa using hp), ih hndtl, htl_none]
        simp [hp]
    · rw [List.find?_cons_of_neg _ (by simpa using hq)]
      by_cases hp : pred q
      · rw [List.filter_cons_of_pos hp, List.find?_cons_of_neg _ (by simpa using hq)]
        exact ih hndtl
      · rw [List.filter_cons_of_neg (by simpa using hp)]
        exact ih hndtl

theorem histFind_filter_nd (h : List (String × ℚ)) (pred : String × ℚ → Bool)
    (k : String) (hnd : KeysND h) :
    histFind (h.filter pred) k =
      match h.find? (fun p => p.1 = k) with
      | none => none
      | some p => if pred p then some p.2 else none := by
  unfold histFind
  rw [find?_filter_nd h pred k hnd]
  cases hfo : h.find? (fun p => p.1 = k) with
  | none => rfl
  | some p =>
    by_cases hp : pred p
    · simp [hp]
    · simp [hp]

theorem keysND_filter (h : List (String × ℚ)) (pred : String × ℚ → Bool)
    (hnd : KeysND h) : KeysND (h.filter pred) :=
  ((h.filter_sublist).map Prod.fst).nodup hnd

theorem keysND_histSet (h : List (String × ℚ)) (k : String) (v : ℚ)
    (hnd : KeysND h) : KeysND (histSet h k v) := by
  unfold KeysND histSet
  rw [List.map_cons, List.nodup_cons]
  constructor
  · intro hmem
    obtain ⟨p, hp, hpk⟩ := List.mem_map.mp hmem
    have := List.of_mem_filter hp
    simp only [decide_eq_true_eq] at this
    exact this hpk
  · exact keysND_filter h _ hnd

theorem mem_of_mem_filter' {p : String × ℚ} {h : List (String × ℚ)}
    {pred : String × ℚ → Bool} (hp : p ∈ h.filter pred) : p ∈ h :=
  List.mem_of_mem_filter hp

/-- Invariant tying the alert-history dict to the alerts fired so far:
every stored stamp is no newer than the current time, every past fired
alert is no newer than the current time, and for each past alert the dict
either stores a stamp at least as new, or dropped the entry because more
than two hours have passed. -/
structure HistOK (h : List (String × ℚ)) (past : List Ev) (tcur : ℚ) : Prop where
  nd : KeysND h
  vals : ∀ p ∈ h, p.2 ≤ tcur
  evs : ∀ e ∈ past, e.1 ≤ tcur
  tracked : ∀ e ∈ past,
    (∀ v, histFind h (keyOf e) = some v → e.1 ≤ v) ∧
    (histFind h (keyOf e) = none → e.1 + 7200 < tcur)

theorem histOK_nil (t : ℚ) : HistOK [] [] t := by
  constructor <;> simp [KeysND]

theorem histOK_filter_cleanup {h : List (String × ℚ)} {past : List Ev} {t : ℚ}
    (tnow : ℚ) (hOK : HistOK h past t) (ht : t ≤ tnow) :
    HistOK (h.filter (fun p => ¬ (7200 < tnow - p.2))) past tnow := by
  constructor
  · exact keysND_filter h _ hOK.nd
  · exact fun p hp => le_trans (hOK.vals p (mem_of_mem_filter' hp)) ht
  · exact fun e he => le_trans (hOK.evs e he) ht
  · intro e he
    rcases hfo : h.find? (fun p => p.1 = keyOf e) with _ | p
    · have hf : histFind (h.filter (fun p => ¬ (7200 < tnow - p.2))) (keyOf e) = none := by
        rw [histFind_filter_nd h _ _ hOK.nd, hfo]
      have hnone : histFind h (keyOf e) = none := by unfold histFind; rw [hfo]; rfl
      have := (hOK.tracked e he).2 hnone
      constructor
      · intro v hv
        rw [hf] at hv
        cases hv
      · intro _
        linarith
    · have hsome : histFind h (keyOf e) = some p.2 := by unfold histFind; rw [hfo]; rfl
      have hf : histFind (h.filter (fun p => ¬ (7200 < tnow - p.2))) (keyOf e) =
          if 7200 < tnow - p.2 then none else some p.2 := by
        rw [histFind_filter_nd h _ _ hOK.nd, hfo]
        by_cases hp : 7200 < tnow - p.2
        · simp [hp]
        · simp [hp]
      by_cases hp : 7200 < tnow - p.2
      · rw [if_pos hp] at hf
        have hev := (hOK.tracked e he).1 p.2 hsome
        constructor
        · intro v hv
          rw [hf] at hv
          cases hv
        · intro _
          linarith
      · rw [if_neg hp] at hf
        constructor
        · intro v hv
          rw [hf] at hv
          cases hv
          exact (hOK.tracked e he).1 p.2 hsome
        · intro hnone
          rw [hf] at hnone
          cases hnone

theorem histOK_histSet {h : List (String × ℚ)} {past : List Ev} {t : ℚ}
    (k : String) (tnow : ℚ) (hOK : HistOK h past t) (ht : t ≤ tnow) :
    HistOK (histSet h k tnow) past tnow := by
  constructor
  · exact keysND_histSet h k tnow hOK.nd
  · intro p hp
    rcases List.mem_cons.mp hp with hp | hp
    · cases hp
      exact le_refl _
    · exact le_trans (hOK.vals p (mem_of_mem_filter' hp)) ht
  · exact fun e he => le_trans (hOK.evs e he) ht
  · intro e he
    rw [histFind_histSet]
    by_cases hk : keyOf e = k
    · rw [if_pos hk]
      refine ⟨fun v hv => ?_, fun hnone => by cases hnone⟩
      cases hv
      exact le_trans (hOK.evs e he) ht
    · rw [if_neg hk]
      refine ⟨(hOK.tracked e he).1, fun hnone => ?_⟩
      have := (hOK.tracked e he).2 hnone
      linarith

theorem checkLunchBreak_no_clear (st : HunterState) (t : Tick)
    (hl : t.isLunchNow = false) :
    (checkLunchBreak st t).alertHistory = st.alertHistory ∧
    (checkLunchBreak st t).lastResetDate = st.lastResetDate := by
  simp only [checkLunchBreak]
  split_ifs with h1 h2 h3 <;> try exact ⟨rfl, rfl⟩
  all_goals
    exfalso
    rw [hl] at h2
    exact absurd h2.1 (by simp)

theorem doMaintenance_same_day (st : HunterState) (t : Tick)
    (hd : t.today = st.lastResetDate) :
    (doMaintenance st t).alertHistory =
      st.alertHistory.filter (fun p => ¬ (7200 < t.now - p.2)) ∧
    (doMaintenance st t).lastResetDate = st.lastResetDate := by
  simp only [doMaintenance]
  split_ifs <;>
    first
      | exact ⟨rfl, rfl⟩
      | (exfalso; simp_all)

theorem volatilityStep_ok {past : List Ev} (st : HunterState)
    (t : Tick) (hOK : HistOK st.alertHistory past t.now) :
    HistOK (volatilityStep st t).alertHistory past t.now ∧
    (volatilityStep st t).lastResetDate = st.lastResetDate := by
  simp only [volatilityStep]
  split_ifs with h1 h2
  · exact ⟨histOK_histSet _ t.now hOK (le_refl _), rfl⟩
  · exact ⟨hOK, rfl⟩
  · exact ⟨hOK, rfl⟩

theorem alertStep_ok {past : List Ev} (cfg : SharkConfig) (st : HunterState)
    (t : Tick) (realPrice orderValue : ℚ) (side : String)
    (hcool : cfg.cooldown ≤ 7200)
    (hOK : HistOK st.alertHistory past t.now) :
    HistOK (alertStep cfg st t realPrice orderValue side).state.alertHistory
      (past ++ (alertStep cfg st t realPrice orderValue side).fired.toList) t.now ∧
    (alertStep cfg st t realPrice orderValue side).state.lastResetDate =
      st.lastResetDate ∧
    (∀ e0, (alertStep cfg st t realPrice orderValue side).fired = some e0 →
      e0.1 = t.now ∧ ∀ e ∈ past, keyOf e = keyOf e0 → e.1 + cfg.cooldown ≤ e0.1) := by
  simp only [alertStep]
  split_ifs with h1 h2 h3 <;>
    try exact ⟨by simpa using hOK, rfl, fun e0 h => by cases h⟩
  all_goals
    push_neg at h2
    refine ⟨?_, rfl, ?_⟩
    · have hbase := histOK_histSet
        (t.symbol ++ "_" ++ side) t.now hOK (le_refl _)
      constructor
      · exact hbase.nd
      · exact hbase.vals
      · intro e he
        rcases List.mem_append.mp he with he | he
        · exact hbase.evs e he
        · simp only [Option.toList_some, List.mem_singleton] at he
          subst he
          exact le_refl _
      · intro e he
        rcases List.mem_append.mp he with he | he
        · exact hbase.tracked e he
        · simp only [Option.toList_some, List.mem_singleton] at he
          subst he
          rw [histFind_histSet]
          rw [show keyOf ((t.now, t.symbol, side) : Ev) = t.symbol ++ "_" ++ side from rfl,
            if_pos rfl]
          exact ⟨fun v hv => by cases hv; exact le_refl _, fun hn => by cases hn⟩
    · intro e0 h0
      injection h0 with h0
      subst h0
      refine ⟨rfl, fun e he hk => ?_⟩
      rcases hfo : histFind st.alertHistory (t.symbol ++ "_" ++ side) with _ | v
      · have hnone := (hOK.tracked e he).2 (by rw [hk]; exact hfo)
        have h0' : histLookup st.alertHistory (t.symbol ++ "_" ++ side) = 0 := by
          unfold histLookup
          rw [hfo]
          rfl
        rw [h0'] at h2
        have : (e.1 : ℚ) + 7200 < t.now := hnone
        have : (e.1 : ℚ) + cfg.cooldown ≤ t.now := by linarith
        simpa using this
      · have hev := (hOK.tracked e he).1 v (by rw [hk]; exact hfo)
        have hv' : histLookup st.alertHistory (t.symbol ++ "_" ++ side) = v := by
          unfold histLookup
          rw [hfo]
          rfl
        rw [hv'] at h2
        have : (e.1 : ℚ) + cfg.cooldown ≤ t.now := by linarith
        simpa using this

theorem processTick_ok {past : List Ev} (cfg : SharkConfig) (st : HunterState)
    (t : Tick) (tprev : ℚ) (hcool : cfg.cooldown ≤ 7200)
    (hl : t.isLunchNow = false) (hd : t.today = st.lastResetDate)
    (ht : tprev ≤ t.now) (hOK : HistOK st.alertHistory past tprev) :
    HistOK (processTick cfg st t).state.alertHistory
      (past ++ (processTick cfg st t).fired.toList) t.now ∧
    (processTick cfg st t).state.lastResetDate = st.lastResetDate ∧
    (∀ e0, (processTick cfg st t).fired = some e0 →
      e0.1 = t.now ∧ ∀ e ∈ past, keyOf e = keyOf e0 → e.1 + cfg.cooldown ≤ e0.1) := by
  have hlc := checkLunchBreak_no_clear st t hl
  have hd1 : t.today = (checkLunchBreak st t).lastResetDate := by
    rw [hlc.2]
    exact hd
  have hdm := doMaintenance_same_day (checkLunchBreak st t) t hd1
  have hOK2 : HistOK (doMaintenance (checkLunchBreak st t) t).alertHistory past t.now := by
    rw [hdm.1, hlc.1]
    exact histOK_filter_cleanup t.now hOK ht
  have hrd2 : (doMaintenance (checkLunchBreak st t) t).lastResetDate =
      st.lastResetDate := by
    rw [hdm.2, hlc.2]
  simp only [processTick]
  set st2 := doMaintenance (checkLunchBreak st t) t with hst2
  split_ifs with hg1 hg2 hg3 hg4 <;>
    try exact ⟨by simpa using hOK2, hrd2, fun e0 h => by cases h⟩
  have hv := volatilityStep_ok st2 t hOK2
  have ha := alertStep_ok cfg (volatilityStep st2 t) t (realPriceOf t.price)
    (realPriceOf t.price * t.vol) (sideName t.sideCode) hcool hv.1
  exact ⟨ha.1, by rw [ha.2.1, hv.2, hrd2], ha.2.2⟩

theorem runTicks_cooldown (cfg : SharkConfig) (hcool : cfg.cooldown ≤ 7200) :
    ∀ (ticks : List Tick) (st : HunterState) (tprev : ℚ) (past : List Ev),
    (∀ t ∈ ticks, t.isLunchNow = false) →
    (∀ t ∈ ticks, t.today = st.lastResetDate) →
    List.Chain (fun a b => a ≤ b) tprev (ticks.map Tick.now) →
    HistOK st.alertHistory past tprev →
    (∀ b ∈ (runTicks cfg st ticks).2, ∀ a ∈ past,
      keyOf a = keyOf b → a.1 + cfg.cooldown ≤ b.1) ∧
    (runTicks cfg st ticks).2.Pairwise
      (fun a b => keyOf a = keyOf b → a.1 + cfg.cooldown ≤ b.1) := by
  intro ticks
  induction ticks with
  | nil =>
    intro st tprev past _ _ _ _
    exact ⟨fun b hb => absurd hb (List.not_mem_nil b), by simp [runTicks]⟩
  | cons t ts ih =>
    intro st tprev past hlun hdate hchain hOK
    rw [List.map_cons, List.chain_cons] at hchain
    have hstep := processTick_ok cfg st t tprev hcool
      (hlun t (List.mem_cons_self t ts)) (hdate t (List.mem_cons_self t ts))
      hchain.1 hOK
    have hrec := ih (processTick cfg st t).state t.now
      (past ++ (processTick cfg st t).fired.toList)
      (fun u hu => hlun u (List.mem_cons_of_mem t hu))
      (fun u hu => by rw [hstep.2.1]; exact hdate u (List.mem_cons_of_mem t hu))
      hchain.2 hstep.1
    have hruncons : (runTicks cfg st (t :: ts)).2 =
        (processTick cfg st t).fired.toList ++
          (runTicks cfg (processTick cfg st t).state ts).2 := rfl
    constructor
    · intro b hb a ha hk
      rw [hruncons] at hb
      rcases List.mem_append.mp hb with hb | hb
      · rcases hfired : (processTick cfg st t).fired with _ | e0
        · rw [hfired] at hb
          cases hb
        · rw [hfired] at hb
          simp only [Option.toList_some, List.mem_singleton] at hb
          subst hb
          exact (hstep.2.2 b hfired).2 a ha hk
      · exact hrec.1 b hb a (List.mem_append_left _ ha) hk
    · rw [hruncons]
      rw [List.pairwise_append]
      refine ⟨?_, hrec.2, ?_⟩
      · rcases (processTick cfg st t).fired with _ | e0 <;> simp
      · intro a ha b hb hk
        exact hrec.1 b hb a (List.mem_append_right _ ha) hk

/-- C7 counterexample: the claim as stated fails at the boundary input
`price = 1000`.  The source computes `price if price > 1000 else
price * 1000`, so a price of exactly 1000 is scaled to 1000000, while the
claim asserts that every `p ≥ 1000` is left unchanged. -/
theorem c7_scale_boundary_cex :
    realPriceOf 1000 = 1000000 ∧ ¬ realPriceOf 1000 = 1000 := by
  constructor <;> norm_num [realPriceOf]

/-- C7 (amended): for every raw tick price `p`, the normalized price used
to compute order notional value is exactly `1000 × p` when `p ≤ 1000`, and
exactly `p` (unchanged) when `p > 1000` — the scaling branch is taken at
`p = 1000`, not only below it. -/
theorem c7_scale_normalization (p : ℚ) :
    (p ≤ 1000 → realPriceOf p = 1000 * p) ∧ (1000 < p → realPriceOf p = p) := by
  unfold realPriceOf
  constructor
  · intro h
    rw [if_neg (not_lt.mpr h), mul_comm]
  · intro h
    rw [if_pos h]

theorem c7_scale_normalization_witness :
    realPriceOf 500 = 1000 * 500 ∧ realPriceOf 2000 = 2000 :=
  ⟨(c7_scale_normalization 500).1 (by norm_num),
   (c7_scale_normalization 2000).2 (by norm_num)⟩

/-- C8 (code bug): the claim's DANGER rules are the clear intent of
`get_market_context` (its own docstring advertises `'SAFE' | 'DANGER'` and
the try block implements exactly the panic-drop / broken-MA20 rules), but
the fetch call `self._fetch_data("VNINDEX", lookback=40)` passes a
`lookback` keyword that the only live `_fetch_data(self, symbol,
timeframe='1D')` does not accept, so every call raises `TypeError` and the
`except` branch returns the fixed `SAFE` / `Error checking Index` dict:
the function can never return DANGER.  The second conjunct evaluates the
intended try-block logic on a panic-drop index series (19 closes at 100
then 80), on which it would return DANGER, exhibiting the divergence. -/
theorem c8_market_context_always_safe :
    getMarketContext =
      { status := "SAFE", reason := "Error checking Index", trend := "SIDEWAY"
        changePts := 0, current := none, ma20 := none } ∧
    (marketContextFromFetch (some idxCloses)).status = "DANGER" := by
  refine ⟨rfl, ?_⟩
  have hlen : ¬ idxCloses.length < 20 := by simp [idxCloses]
  have hp : lastClose idxCloses - prevClose idxCloses < -10 := by
    with_unfolding_all decide
  simp only [marketContextFromFetch, if_neg hlen]
  rw [if_pos hp]

/-- C5 counterexample: the fallback dict built by `_fallback_result` has
no `score` key at all, so `check_signal` on an unavailable series does not
return `score = 0` as the claim states (a caller reading `result['score']`
raises `KeyError`). -/
theorem c5_fallback_score_cex :
    ¬ (checkSignalData none emptyTa).score = some 0 ∧
    (checkSignalData none emptyTa).rating = "WATCH" ∧
    (checkSignalData none emptyTa).error.isSome = true := by
  refine ⟨?_, rfl, rfl⟩
  simp [checkSignalData, fallbackResult]

/-- C5 (amended): for every symbol whose fetched OHLCV series is
unavailable or has fewer than 50 bars, `check_signal` returns the fallback
result with rating `"WATCH"`, a non-null error string, zeroed numeric
indicator fields, and no `score` key at all — and never raises (it is a
total function). -/
theorem c5_insufficient_fallback (ta : TaBackend) (fetch : Option Series)
    (h : fetch = none ∨ ∃ df, fetch = some df ∧ df.length < 50) :
    (checkSignalData fetch ta).rating = "WATCH" ∧
    (checkSignalData fetch ta).error.isSome = true ∧
    (checkSignalData fetch ta).score = none ∧
    (checkSignalData fetch ta).rsi = 0 ∧
    (checkSignalData fetch ta).cmf = 0 ∧
    (checkSignalData fetch ta).close = 0 := by
  rcases h with h | ⟨df, hdf, hlen⟩
  · subst h
    exact ⟨rfl, rfl, rfl, rfl, rfl, rfl⟩
  · subst hdf
    simp only [checkSignalData, if_pos hlen]
    exact ⟨rfl, rfl, rfl, rfl, rfl, rfl⟩

theorem c5_insufficient_fallback_witness :
    (checkSignalData (some df6) emptyTa).rating = "WATCH" ∧
    (checkSignalData (some df6) emptyTa).error.isSome = true ∧
    (checkSignalData (some df6) emptyTa).score = none ∧
    (checkSignalData (some df6) emptyTa).rsi = 0 ∧
    (checkSignalData (some df6) emptyTa).cmf = 0 ∧
    (checkSignalData (some df6) emptyTa).close = 0 :=
  c5_insufficient_fallback emptyTa (some df6) (Or.inr ⟨df6, rfl, by simp [df6]⟩)

/-- C9: `get_latest_summary` is a pure, deterministic function of the
input bars: the engine instance holds no mutable state, so calling it
twice on the same series — even with another call on a different series in
between — produces identical output, and the engine object is unchanged. -/
theorem c9_summarize_stateless (eng : TrinityLite) (ta : TaBackend)
    (df dfOther : Series) :
    (eng.getLatestSummaryM ta df).1 =
      ((((eng.getLatestSummaryM ta df).2.getLatestSummaryM ta dfOther).2).getLatestSummaryM
        ta df).1 ∧
    (eng.getLatestSummaryM ta df).2 = eng :=
  ⟨rfl, rfl⟩

/-- C10: `judge_signal` is total at its boundary: it always returns a
record with an `approved` flag and a `reason`; the `analysis` key is
present in the returned dict exactly when `approved` is true (so callers
reading `result['analysis']` on a rejection fail); and when the internal
message construction fails (the `KeyError` on `market['current']`), the
`except` branch yields `approved = false` with reason `Judge Exception`. -/
theorem c10_judge_total_boundary (symbol : String) (a : AnalysisResult)
    (m : MarketContext) (p : SharkPayload) (ts : String) :
    ((judgeCore symbol a m p ts).approved =
      (judgeCore symbol a m p ts).analysis.isSome) ∧
    ((judgeCore symbol a m p ts).reason = "Judge Exception" →
      (judgeCore symbol a m p ts).approved = false) := by
  simp only [judgeCore]
  split_ifs <;> try exact ⟨rfl, fun _ => rfl⟩
  all_goals
    cases hm : m.current
    · exact ⟨rfl, fun _ => rfl⟩
    · refine ⟨rfl, fun h => ?_⟩
      simp at h

theorem c10_judge_total_boundary_witness :
    (judgeCore "VIC" passingAnalysis getMarketContext cexPayload
      "10:00").approved = false :=
  (c10_judge_total_boundary "VIC" passingAnalysis getMarketContext
    cexPayload "10:00").2 (by with_unfolding_all decide)

/-- C2 counterexample: a tick whose shark order is rejected by the judge
still produces a delivered message — `_run_hybrid_analysis` sends a raw
`SHARK BITE (RAW)` alert carrying the rejection reason (and `process_tick`
already sent a plain shark alert before judging). -/
theorem c2_raw_reject_alert_cex :
    (judgeSignal "AAA" none emptyTa none cexPayload "10:00").approved = false ∧
    (runHybridAnalysis true "AAA" none emptyTa none 50000 2 2000000
      2000000000 40000 "Buy" "10:00").length = 1 := by
  constructor <;> with_unfolding_all decide

/-- C2 (amended): rejections are not silent.  For every processed tick
whose detected order is rejected by the judge, `_run_hybrid_analysis`
delivers exactly one raw rejected-shark alert (when an alert chat is
configured), containing the rejection reason; approved orders get the
full approved alert instead.  (`process_tick` additionally sends a plain
shark alert before the judge runs.) -/
theorem c2_reject_sends_raw (symbol : String) (fetch : Option Series)
    (ta : TaBackend) (idxFetch : Option (List ℚ))
    (price changePc totalVol orderValue vol : ℚ) (side timeStr : String)
    (hrej : (judgeSignal symbol fetch ta idxFetch
      ⟨price, changePc, totalVol, orderValue, vol, side⟩ timeStr).approved = false) :
    runHybridAnalysis true symbol fetch ta idxFetch price changePc totalVol
      orderValue vol side timeStr =
      [rawSharkMsg symbol price changePc orderValue side
        (judgeSignal symbol fetch ta idxFetch
          ⟨price, changePc, totalVol, orderValue, vol, side⟩ timeStr).reason] := by
  simp only [runHybridAnalysis, hrej]
  simp

theorem c2_reject_sends_raw_witness :
    runHybridAnalysis true "AAA" none emptyTa none 50000 2 2000000
      2000000000 40000 "Buy" "10:00" =
      [rawSharkMsg "AAA" 50000 2 2000000000 "Buy"
        (judgeSignal "AAA" none emptyTa none
          ⟨50000, 2, 2000000, 2000000000, 40000, "Buy"⟩ "10:00").reason] :=
  c2_reject_sends_raw "AAA" none emptyTa none 50000 2 2000000 2000000000
    40000 "Buy" "10:00" (by with_unfolding_all decide)

/-- In any summary produced by the engine, the pump-and-dump flag forces
RSI above 80: the flag is computed from the same (0-filled) RSI column
whose last value the summary reports. -/
theorem summary_pump_rsi (ta : TaBackend) (df : Series) (s : Summary)
    (hsum : getLatestSummary ta df = some s) (hp : s.pumpDumpRisk = true) :
    80 < s.rsi := by
  unfold getLatestSummary at hsum
  rcases hadx : ta.adx df with _ | cols
  · rw [hadx] at hsum
    exact Option.noConfusion hsum
  · rw [hadx] at hsum
    by_cases hdf : df = []
    · simp [hdf] at hsum
    · simp only [if_neg hdf] at hsum
      have hbs : buildSummary ta df cols = s := Option.some_inj.mp hsum
      subst hbs
      rw [buildSummary_pumpDumpRisk] at hp
      rw [buildSummary_rsi]
      simp only [pumpDumpCol, Bool.and_eq_true, decide_eq_true_eq] at hp
      have h80 : PD_RSI_THRESHOLD < rsiSafeCol ta df (df.length - 1) := hp.1.1
      simpa [PD_RSI_THRESHOLD] using h80

/-- C1: for every symbol and order snapshot, if the analysis produced for
the symbol has its pump-and-dump risk flag set, then `judge_signal`
returns `approved = false`, even when the rating qualifies as a buy
rating.  (The rejection fires through the RSI > 75 kill switch, since the
pump-and-dump flag requires RSI > 80; `judge_signal` itself has no
dedicated pump-and-dump switch.) -/
theorem c1_pump_flag_rejected (ta : TaBackend) (df : Series)
    (idx : Option (List ℚ)) (payload : SharkPayload) (symbol timeStr : String)
    (hp : (getLatestSummary ta df).map Summary.pumpDumpRisk = some true) :
    (judgeSignal symbol (some df) ta idx payload timeStr).approved = false := by
  obtain ⟨s, hsum, hps⟩ := Option.map_eq_some'.mp hp
  have hrsi : 80 < s.rsi := summary_pump_rsi ta df s hsum hps
  unfold judgeSignal
  by_cases h50 : df.length < 50
  · simp only [checkSignalData, if_pos h50, judgeCore]
    rfl
  · simp only [checkSignalData, if_neg h50, hsum, judgeCore, checkSignalSuccess_rsi]
    split_ifs <;> try rfl
    all_goals
      exfalso
      linarith

theorem c1_pump_flag_rejected_witness :
    (judgeSignal "AAA" (some df6) taRsi85 none cexPayload "10:00").approved = false :=
  c1_pump_flag_rejected taRsi85 df6 none cexPayload "AAA" "10:00"
    (by with_unfolding_all decide)

/-- C6 counterexample: a summary scoring exactly 9 gets the strong-buy
rating `"MUA MẠNH 🚀"` (the code's threshold is `score >= 8`), while the
claim's thresholds (≥10 strong-buy, 10 > s ≥ 7 speculative-buy) predict
the speculative-buy rating for a score of 9. -/
theorem c6_rating_cex :
    (checkSignalData (some df50) taRsi60).score = some 9 ∧
    (checkSignalData (some df50) taRsi60).rating = "MUA MẠNH 🚀" ∧
    specRatingOfScore 9 = "MUA THĂM DÒ 🟢" ∧
    ¬ ("MUA MẠNH 🚀" : String) = "MUA THĂM DÒ 🟢" := by
  refine ⟨?_, ?_, ?_, ?_⟩
  · with_unfolding_all decide
  · with_unfolding_all decide
  · decide
  · decide

/-- C6 (amended): in `check_signal`, for every computed total score `s`
the pre-guard rating is determined by the thresholds `s ≥ 8` → strong-buy
(`MUA MẠNH 🚀`), `8 > s ≥ 6` → speculative-buy (`MUA THĂM DÒ 🟢`), and
`s < 6` → watch (`THEO DÕI 🟡`); there is no no-buy rating, and the only
override is the final ADX strong-downtrend guard, which forces `"WATCH"`. -/
theorem c6_rating_thresholds (ta : TaBackend) (df : Series)
    (h50 : 50 ≤ df.length) (hs : (getLatestSummary ta df).isSome = true) :
    ∃ sc : ℤ, (checkSignalData (some df) ta).score = some sc ∧
      (¬ (25 < (checkSignalData (some df) ta).adx.getD 0 ∧
          (checkSignalData (some df) ta).isBullish.getD true = false) →
        (checkSignalData (some df) ta).rating =
          (if 8 ≤ sc then "MUA MẠNH 🚀"
           else if 6 ≤ sc then "MUA THĂM DÒ 🟢" else "THEO DÕI 🟡")) ∧
      ((25 < (checkSignalData (some df) ta).adx.getD 0 ∧
          (checkSignalData (some df) ta).isBullish.getD true = false) →
        (checkSignalData (some df) ta).rating = "WATCH") := by
  obtain ⟨s, hsum⟩ := Option.isSome_iff_exists.mp hs
  have hn50 : ¬ df.length < 50 := not_lt.mpr h50
  simp only [checkSignalData, if_neg hn50, hsum, checkSignalSuccess_score,
    checkSignalSuccess_adx, checkSignalSuccess_isBullish,
    checkSignalSuccess_rating, Option.getD_some]
  refine ⟨scoreOf s, rfl, ?_, ?_⟩
  · intro hg
    rw [if_neg hg]
  · intro hg
    rw [if_pos hg]

theorem c6_rating_thresholds_witness :
    ∃ sc : ℤ, (checkSignalData (some df50) taRsi60).score = some sc ∧
      (¬ (25 < (checkSignalData (some df50) taRsi60).adx.getD 0 ∧
          (checkSignalData (some df50) taRsi60).isBullish.getD true = false) →
        (checkSignalData (some df50) taRsi60).rating =
          (if 8 ≤ sc then "MUA MẠNH 🚀"
           else if 6 ≤ sc then "MUA THĂM DÒ 🟢" else "THEO DÕI 🟡")) ∧
      ((25 < (checkSignalData (some df50) taRsi60).adx.getD 0 ∧
          (checkSignalData (some df50) taRsi60).isBullish.getD true = false) →
        (checkSignalData (some df50) taRsi60).rating = "WATCH") :=
  c6_rating_thresholds taRsi60 df50 (by decide) (by with_unfolding_all decide)

/-- C4 counterexample: `process_tick` maintains no pressure window.  A
single first qualifying buy tick — with a pressure count of 1 (below the
claimed minimum of 2) and an order value below 3× the base threshold —
already dispatches the hybrid analysis. -/
theorem c4_pressure_cex :
    (processTick cexCfg (initState "2025-01-06" 0) tick4).dispatched.isSome = true ∧
    realPriceOf tick4.price * tick4.vol < 3 * cexCfg.minValue ∧
    specPressureCount [tick4.now] tick4.now 600 = 1 := by
  refine ⟨?_, ?_, ?_⟩ <;> with_unfolding_all decide

/-- C4 (amended): `process_tick` keeps no pressure state at all.  With the
analyzer injected and the symbol/time gates passed, the hybrid analysis is
dispatched if and only if the single order's notional value reaches
`min_value` and the per-`(symbol, side)` cooldown has elapsed — no
two-order pressure minimum and no 3× bypass exist. -/
theorem c4_dispatch_no_pressure (cfg : SharkConfig) (st : HunterState) (t : Tick)
    (hA : cfg.hasAnalyzer = true) (hsym : ¬ t.symbol = "")
    (hstart : pyStrLt t.currentHM cfg.startTime = false)
    (hend : pyStrLt "15:15" t.currentHM = false)
    (hlen : ¬ 3 < t.symbol.length) :
    ((processTick cfg st t).dispatched.isSome = true ↔
      (cfg.minValue ≤ realPriceOf t.price * t.vol ∧
        cfg.cooldown ≤ t.now - histLookup
          (volatilityStep (doMaintenance (checkLunchBreak st t) t) t).alertHistory
          (t.symbol ++ "_" ++ sideName t.sideCode))) := by
  simp only [processTick, alertStep, if_neg hsym, hstart, hend, hA,
    Bool.false_eq_true, if_false, if_true, if_neg hlen]
  split_ifs with h1 h2
  · simp only [Option.isSome_none, Bool.false_eq_true, false_iff]
    rintro ⟨ha, _⟩
    linarith
  · simp only [Option.isSome_none, Bool.false_eq_true, false_iff]
    rintro ⟨_, hb⟩
    linarith
  · simp only [Option.isSome_some, true_iff]
    exact ⟨le_of_not_lt h1, le_of_not_lt h2⟩

theorem c4_dispatch_no_pressure_witness :
    (processTick cexCfg (initState "2025-01-06" 0) tick5).dispatched.isSome = true :=
  (c4_dispatch_no_pressure cexCfg (initState "2025-01-06" 0) tick5 rfl
    (by with_unfolding_all decide) (by with_unfolding_all decide)
    (by with_unfolding_all decide) (by with_unfolding_all decide)).mpr
    ⟨by with_unfolding_all decide, by with_unfolding_all decide⟩

/-- C3 counterexample: the cooldown invariant as stated is violated.
An alert for (AAA, Buy) fires at t=150; at t=165 the `_check_lunch_break`
throttle window elapses just as the lunch break begins, `alert_history` is
cleared, and a second (AAA, Buy) alert fires only 15 seconds after the
first — inside the 60-second default cooldown. -/
theorem c3_cooldown_cex :
    (runTicks cexCfg (initState "2025-01-06" 0) [tick1, tick2, tick3]).2 =
      [(150, "AAA", "Buy"), (165, "AAA", "Buy")] ∧
    (165 : ℚ) - 150 < cexCfg.cooldown := by
  constructor <;> with_unfolding_all decide

/-- C3 (amended): the cooldown invariant holds on every run in which the
alert history is never cleared between the two alerts: if no tick enters
the lunch break and all ticks share the service's reset date (so neither
the lunch-break clear nor a daily reset fires), and the cooldown is at
most the 2-hour history-expiry horizon, then any two fired alerts for the
same (symbol, side) are at least `cooldown` seconds apart, regardless of
how many ticks arrive in between. -/
theorem c3_cooldown_no_clear_invariant (cfg : SharkConfig) (d : String)
    (t0 : ℚ) (ticks : List Tick) (hcool : cfg.cooldown ≤ 7200)
    (hlun : ∀ t ∈ ticks, t.isLunchNow = false)
    (hdate : ∀ t ∈ ticks, t.today = d)
    (hchain : List.Chain (fun a b => a ≤ b) t0 (ticks.map Tick.now)) :
    (runTicks cfg (initState d t0) ticks).2.Pairwise
      (fun a b => keyOf a = keyOf b → a.1 + cfg.cooldown ≤ b.1) :=
  (runTicks_cooldown cfg hcool ticks (initState d t0) t0 [] hlun
    (fun t ht => hdate t ht) hchain (histOK_nil t0)).2

theorem c3_cooldown_no_clear_invariant_witness :
    (runTicks cexCfg (initState "2025-01-06" 0) [tick4, tick5]).2.Pairwise
      (fun a b => keyOf a = keyOf b → a.1 + cexCfg.cooldown ≤ b.1) :=
  c3_cooldown_no_clear_invariant cexCfg "2025-01-06" 0 [tick4, tick5]
    (by with_unfolding_all decide) (by decide) (by decide)
    (List.Chain.cons (by norm_num [tick4])
      (List.Chain.cons (by norm_num [tick4, tick5]) List.Chain.nil))
